import Mathlib

/-!
Verification of the zoogle OAuth library (TypeScript) against its
natural-language specification, via a shallow embedding in Lean 4.

Sources embedded:
- `src/errors.ts` (error classes)
- `src/core/config.ts` (`Config.set`, `Config.validate`)
- `src/core/oauth.ts` (`OAuth.getAuthUrl`, `OAuth.getTokens`, `OAuth.getUserInfo`)
- `src/utils/jwt.ts` (`JWTUtils.generateToken`, `JWTUtils.verifyToken`,
  the variant that throws `ZoogleAuthError`)
- `src/middleware/auth.ts` (`requireAuth`, the variant that answers with
  `{success, error_code, message}` bodies)
- `src/adapters/routes.ts` (the `GET /callback` handler)
- `src/index.ts` (`GoogleOAuthEasy.configure`)

External collaborators (the `jsonwebtoken` signing primitive, axios, the
Express request/response objects, `process.env`) are modelled at their
interface boundary: HTTP outcomes and the environment are passed in as
explicit values, and the signing primitive is modelled by a token value
carrying the signing secret and timing claims, with the documented
verify-error taxonomy (`TokenExpiredError`, `JsonWebTokenError`,
`NotBeforeError`).

JavaScript truthiness of strings (`!s` is true exactly for the empty
string) is rendered as `s = ""` checks throughout.
-/

namespace Zoogle

/-! ## Error classes (`src/errors.ts`) -/

/-- The closed code set of `ZoogleAuthError.errorCode`. -/
inductive AuthErrorCode where
  | token_missing
  | token_malformed
  | token_expired
  | token_invalid
deriving DecidableEq, Repr

/-- The wire string of an `AuthErrorCode` (the TypeScript codes are string
literals). -/
def AuthErrorCode.codeString : AuthErrorCode → String
  | .token_missing => "token_missing"
  | .token_malformed => "token_malformed"
  | .token_expired => "token_expired"
  | .token_invalid => "token_invalid"

/-- A JavaScript error value as thrown inside zoogle: either a plain
`new Error(message)` or one of the zoogle error classes from
`src/errors.ts`.  `instanceof` checks become constructor matches. -/
inductive JsError where
  /-- a plain `new Error(message)` -/
  | plain (message : String)
  /-- `ZoogleConfigError(field, message, hint)` -/
  | zoogleConfig (field : String) (message : String) (hint : String)
  /-- `ZoogleOAuthError(message, statusCode?, googleError?)` -/
  | zoogleOAuth (message : String) (statusCode : Option Nat) (googleError : Option String)
  /-- `ZoogleDatabaseError(message, originalError)` -/
  | zoogleDatabase (message : String) (originalError : JsError)
  /-- `ZoogleAuthError(errorCode, message)` -/
  | zoogleAuth (errorCode : AuthErrorCode) (message : String)
deriving DecidableEq, Repr

/-- `error.message` of a `JsError`. -/
def JsError.message : JsError → String
  | .plain m => m
  | .zoogleConfig _ m _ => m
  | .zoogleOAuth m _ _ => m
  | .zoogleDatabase m _ => m
  | .zoogleAuth _ m => m

/-! ## Data model (`src/types/index.ts`) -/

/-- `GoogleConfig`: the provider credentials section. -/
structure GoogleConfig where
  clientId : String
  clientSecret : String
  callbackURL : String
deriving DecidableEq, Repr

/-- `JWTConfig`: signing secret and optional lifetime string
(`expiresIn?: string`). -/
structure JWTConfig where
  secret : String
  expiresIn : Option String
deriving DecidableEq, Repr

/-- `GoogleUserProfile`: the four-field profile shape. -/
structure GoogleUserProfile where
  id : String
  email : String
  name : String
  picture : String
deriving DecidableEq, Repr

/-- `AppUser.id` is `string | number` in TypeScript. -/
inductive UserId where
  | str (s : String)
  | num (n : Int)
deriving DecidableEq, Repr

/-- `AppUser`: required `id` and `email`; the TypeScript index signature
`[key: string]: any` (arbitrary extra fields) is modelled as a list of
extra named fields. -/
structure AppUser where
  id : UserId
  email : String
  extra : List (String × String)
deriving DecidableEq, Repr

/-- `FindOrCreateUserFn`: the embedder's async user-resolution callback;
it resolves to an `AppUser` or rejects with some error. -/
def FindOrCreateUserFn := GoogleUserProfile → Except JsError AppUser

/-! ## Configuration holder (`src/core/config.ts`) -/

/-- The mutable singleton `Config` class state.  The optional
`onSuccess`/`onError` handlers act on the Express response; only their
presence matters to the flow decisions, so they are modelled as presence
flags (their effect appears as a dedicated route outcome). -/
structure Config where
  google : GoogleConfig
  jwt : JWTConfig
  findOrCreateUser : Option FindOrCreateUserFn
  onSuccess : Bool
  onError : Bool

/-- The initial singleton state (`new Config()` field initialisers:
empty credentials, empty secret, `expiresIn: '7d'`, no callbacks). -/
def Config.initial : Config :=
  { google := { clientId := "", clientSecret := "", callbackURL := "" }
  , jwt := { secret := "", expiresIn := some "7d" }
  , findOrCreateUser := none
  , onSuccess := false
  , onError := false }

/-- `LibraryOptions` as consumed by `Config.set`: each top-level section
is checked for presence (`if (options.google) ...`), so each is an
`Option` here.  `options.google` has all three fields required, so its
spread replaces the whole section; `options.jwt.expiresIn` is optional,
so the spread keeps the previous value when the key is absent. -/
structure LibraryOptions where
  google : Option GoogleConfig
  jwt : Option JWTConfig
  findOrCreateUser : Option FindOrCreateUserFn
  onSuccess : Bool
  onError : Bool

/-- `Config.set(options)`: shallow merge per top-level section, no
validation. -/
def Config.set (c : Config) (options : LibraryOptions) : Config :=
  { google :=
      match options.google with
      | some g => g
      | none => c.google
  , jwt :=
      match options.jwt with
      | some j => { secret := j.secret, expiresIn := j.expiresIn.orElse fun _ => c.jwt.expiresIn }
      | none => c.jwt
  , findOrCreateUser :=
      match options.findOrCreateUser with
      | some f => some f
      | none => c.findOrCreateUser
  , onSuccess := c.onSuccess || options.onSuccess
  , onError := c.onError || options.onError }

/-- The non-fatal advisory diagnostics `Config.validate` can print
(`console.warn` blocks 1-4). -/
inductive ConfigWarning where
  | placeholderClientId
  | placeholderClientSecret
  | weakJwtSecret
  | shortJwtSecret
  | httpCallbackInProduction
deriving DecidableEq, Repr

/-- `pat.isPrefixOf`-style check on character lists, written out. -/
def startsWithChars : List Char → List Char → Bool
  | _, [] => true
  | [], _ :: _ => false
  | c :: cs, p :: ps => c == p && startsWithChars cs ps

/-- Whether `pat` occurs as a contiguous run inside `l`. -/
def hasInfixChars (pat : List Char) : List Char → Bool
  | [] => startsWithChars [] pat
  | c :: cs => startsWithChars (c :: cs) pat || hasInfixChars pat cs

/-- The placeholder-detection regex of `Config.validate`: a
case-insensitive alternation of the four literals `YOUR_`, `CHANGE_ME`,
`YOUR-CLIENT` and `your-`. -/
def placeholderTest (s : String) : Bool :=
  let low := s.toLower
  hasInfixChars "your_".toList low.toList ||
  hasInfixChars "change_me".toList low.toList ||
  hasInfixChars "your-client".toList low.toList ||
  hasInfixChars "your-".toList low.toList

/-- The known-weak secret list of `Config.validate`. -/
def weakSecrets : List String := ["secret", "123456", "password", "changeme", "jwtsecret"]

/-- `Config.validate()`: throws the first failing fatal check as a
`ZoogleConfigError` (the combined all-empty check fires before the
field-by-field ones), then collects the non-fatal advisory warnings.
`production` stands for `process.env.NODE_ENV === 'production'`. -/
def Config.validate (c : Config) (production : Bool) : Except JsError (List ConfigWarning) :=
  if c.google.clientId = "" ∧ c.google.clientSecret = "" ∧ c.jwt.secret = "" then
    .error (.zoogleConfig "all"
      "All required secrets are missing"
      "Did you forget to load your .env file? Make sure you call require(\x27dotenv\x27).config() at the top of your entry file (e.g. server.ts) or otherwise load your environment variables.")
  else if c.google.clientId = "" then
    .error (.zoogleConfig "google.clientId"
      "Missing: google.clientId"
      "You need a Client ID from Google Cloud Console. Go to https://console.cloud.google.com/apis/credentials and add GOOGLE_CLIENT_ID to your environment.")
  else if c.google.clientSecret = "" then
    .error (.zoogleConfig "google.clientSecret"
      "Missing: google.clientSecret"
      "You need a Client Secret from Google Cloud Console. Add GOOGLE_CLIENT_SECRET to your environment.")
  else if c.google.callbackURL = "" then
    .error (.zoogleConfig "google.callbackURL"
      "Missing: google.callbackURL"
      "Provide a callback URL (e.g. http://localhost:3000/auth/callback) and add it to your Google OAuth settings as an Authorized redirect URI.")
  else if c.jwt.secret = "" then
    .error (.zoogleConfig "jwt.secret"
      "Missing: jwt.secret"
      "This is a long, random string used to sign user tokens. Generate one and set JWT_SECRET in your environment.")
  else if c.findOrCreateUser.isNone then
    .error (.zoogleConfig "findOrCreateUser"
      "Missing: findOrCreateUser function"
      "Zoogle needs an async function that takes a Google profile and returns (or creates) a user record in your database.")
  else
    .ok <|
      (if c.google.clientId ≠ "" ∧ placeholderTest c.google.clientId then
        [ConfigWarning.placeholderClientId] else []) ++
      (if c.google.clientSecret ≠ "" ∧ placeholderTest c.google.clientSecret then
        [ConfigWarning.placeholderClientSecret] else []) ++
      (if c.jwt.secret.toLower ∈ weakSecrets then
        [ConfigWarning.weakJwtSecret] else []) ++
      (if c.jwt.secret ≠ "" ∧ c.jwt.secret.length < 32 then
        [ConfigWarning.shortJwtSecret] else []) ++
      (if production ∧ c.google.callbackURL ≠ "" ∧ c.google.callbackURL.startsWith "http://" then
        [ConfigWarning.httpCallbackInProduction] else [])

/-- The `field` of the `ZoogleConfigError` thrown by a `validate` run,
if any. -/
def configErrorField : Except JsError (List ConfigWarning) → Option String
  | .error (.zoogleConfig f _ _) => some f
  | _ => none

/-- Transcribed from the spec's required-field order for `validate()`
(clause (b)-(f)): the first missing field among client id, client
secret, callback URL, signing secret, user-resolution callback.  Used
only to compare `Config.validate` against the spec's words. -/
def firstMissingFieldSpec (c : Config) : Option String :=
  if c.google.clientId = "" then some "google.clientId"
  else if c.google.clientSecret = "" then some "google.clientSecret"
  else if c.google.callbackURL = "" then some "google.callbackURL"
  else if c.jwt.secret = "" then some "jwt.secret"
  else if c.findOrCreateUser.isNone then some "findOrCreateUser"
  else none

/-- The names of the required fields a configuration is missing, in the
spec's order. -/
def missingFields (c : Config) : List String :=
  (if c.google.clientId = "" then ["google.clientId"] else []) ++
  (if c.google.clientSecret = "" then ["google.clientSecret"] else []) ++
  (if c.google.callbackURL = "" then ["google.callbackURL"] else []) ++
  (if c.jwt.secret = "" then ["jwt.secret"] else []) ++
  (if c.findOrCreateUser.isNone then ["findOrCreateUser"] else [])

/-- C2: `validate()` raises exactly one Configuration error chosen by the
stated precedence: when client id, client secret and signing secret are
all empty, the single combined error with field `all` supersedes the
individual checks; otherwise the error names the first missing field in
the order client id, client secret, callback URL, signing secret,
user-resolution callback; in particular a configuration missing exactly
one required field gets the error naming that field. -/
theorem validate_precedence (c : Config) (production : Bool) :
    (c.google.clientId = "" ∧ c.google.clientSecret = "" ∧ c.jwt.secret = "" →
      configErrorField (Config.validate c production) = some "all") ∧
    (¬ (c.google.clientId = "" ∧ c.google.clientSecret = "" ∧ c.jwt.secret = "") →
      configErrorField (Config.validate c production) = firstMissingFieldSpec c) ∧
    (∀ f, missingFields c = [f] →
      configErrorField (Config.validate c production) = some f) := by
  refine ⟨?_, ?_, ?_⟩
  · rintro ⟨h1, h2, h3⟩
    simp [Config.validate, configErrorField, h1, h2, h3]
  · intro hn
    simp only [Config.validate, firstMissingFieldSpec, if_neg hn]
    split_ifs <;> rfl
  · intro f hf
    by_cases hA : c.google.clientId = "" <;>
      by_cases hB : c.google.clientSecret = "" <;>
        by_cases hC : c.google.callbackURL = "" <;>
          by_cases hD : c.jwt.secret = "" <;>
            by_cases hE : c.findOrCreateUser.isNone <;>
              simp [missingFields, hA, hB, hC, hD, hE] at hf <;>
                simp [Config.validate, configErrorField, hA, hB, hC, hD, hE, ← hf]

/-- Witness for C2 at a concrete configuration missing exactly the
callback URL. -/
theorem validate_precedence_witness :
    configErrorField (Config.validate
      { google := { clientId := "cid", clientSecret := "cs", callbackURL := "" }
      , jwt := { secret := "0123456789", expiresIn := some "7d" }
      , findOrCreateUser := some fun p => .ok { id := .str p.id, email := p.email, extra := [] }
      , onSuccess := false
      , onError := false } false) = some "google.callbackURL" :=
  (validate_precedence _ false).2.2 "google.callbackURL" (by decide)

/-- C8: when every required field is present, `validate()` succeeds; the
advisory checks (placeholder credentials, weak secret, short secret,
http callback in production) never make it fail. -/
theorem validate_passes_with_required_fields (c : Config) (production : Bool)
    (h1 : c.google.clientId ≠ "") (h2 : c.google.clientSecret ≠ "")
    (h3 : c.google.callbackURL ≠ "") (h4 : c.jwt.secret ≠ "")
    (h5 : c.findOrCreateUser.isNone = false) :
    ∃ ws, Config.validate c production = .ok ws := by
  simp [Config.validate, h1, h2, h3, h4, h5]

/-- A configuration triggering all four advisory conditions at once:
placeholder-looking credentials, the known-weak 6-character secret
`secret` (which is also shorter than 32 characters), and an `http://`
callback URL in production. -/
def cfgAdvisory : Config :=
  { google :=
      { clientId := "YOUR_CLIENT_ID"
      , clientSecret := "CHANGE_ME_SECRET"
      , callbackURL := "http://example.com/auth/callback" }
  , jwt := { secret := "secret", expiresIn := some "7d" }
  , findOrCreateUser := some fun p => .ok { id := .str p.id, email := p.email, extra := [] }
  , onSuccess := false
  , onError := false }

/-- Witness for C8: `cfgAdvisory` trips every advisory check yet
`validate()` still succeeds (in production mode). -/
theorem validate_passes_with_required_fields_witness :
    ∃ ws, Config.validate cfgAdvisory true = .ok ws :=
  validate_passes_with_required_fields cfgAdvisory true
    (by decide) (by decide) (by decide) (by decide) (by decide)

/-! ## The external signing primitive (`jsonwebtoken`)

Modelled at its interface boundary: a signed token is a value carrying
the claim payload, the secret it was signed with, the issue time and
lifetime (so `exp = iat + lifetime`), and an optional not-before claim.
`jwt.verify` checks the secret, then `nbf`, then `exp` (expired when
`now ≥ exp`), failing with its documented error taxonomy. -/

/-- A decoded JWT payload: `jwt.verify` can return a plain string (for
non-JSON payloads) or a claims object; the zoogle payload carries `id`
and `email`. -/
inductive JwtPayloadV where
  | strP (s : String)
  | objP (id : UserId) (email : String)
deriving DecidableEq, Repr

/-- A well-formed signed token. -/
structure SignedToken where
  payload : JwtPayloadV
  secret : String
  iat : Nat
  /-- lifetime in seconds: the `exp` claim is `iat + lifetime` -/
  lifetime : Nat
  nbf : Option Nat
deriving DecidableEq, Repr

/-- A token string as presented by a client: either (decodes to) a
well-formed signed token or is structurally malformed. -/
inductive Token where
  | signed (t : SignedToken)
  | malformed (raw : String)
deriving DecidableEq, Repr

/-- The failure taxonomy of `jwt.verify`, dispatched on by `error.name`
in the source.  `otherError` stands for any unrecognized failure
shape. -/
inductive JwtVerifyError where
  | tokenExpiredError
  | jsonWebTokenError
  | notBeforeError
  | otherError (name : String) (msg : String)
deriving DecidableEq, Repr

/-- `error.name` of a `jwt.verify` failure. -/
def JwtVerifyError.name : JwtVerifyError → String
  | .tokenExpiredError => "TokenExpiredError"
  | .jsonWebTokenError => "JsonWebTokenError"
  | .notBeforeError => "NotBeforeError"
  | .otherError n _ => n

/-- `error.message` of a `jwt.verify` failure. -/
def JwtVerifyError.errMessage : JwtVerifyError → String
  | .tokenExpiredError => "jwt expired"
  | .jsonWebTokenError => "invalid signature"
  | .notBeforeError => "jwt not active"
  | .otherError _ m => m

/-- The `ms` duration-string parser used by `jsonwebtoken` for
`expiresIn`, reduced to seconds; only the documented string forms are
modelled (digits followed by a unit; a bare number is milliseconds). -/
def parseDuration (s : String) : Nat :=
  let cs := s.toList
  let digits := cs.takeWhile Char.isDigit
  let unit := (cs.drop digits.length).dropWhile (fun c => c = ' ')
  let n := digits.foldl (fun a c => a * 10 + (c.toNat - 48)) 0
  if unit = "d".toList ∨ unit = "day".toList ∨ unit = "days".toList then n * 86400
  else if unit = "h".toList ∨ unit = "hr".toList ∨ unit = "hrs".toList ∨
    unit = "hour".toList ∨ unit = "hours".toList then n * 3600
  else if unit = "m".toList ∨ unit = "min".toList ∨ unit = "mins".toList then n * 60
  else if unit = "s".toList ∨ unit = "sec".toList ∨ unit = "secs".toList then n
  else if unit = "w".toList then n * 604800
  else if unit = "y".toList then n * 31557600
  else if unit = [] then n / 1000
  else 0

/-- `jwt.sign(payload, secret, { expiresIn })` at clock time `now`
(seconds): produces a token carrying the payload, the signing secret,
`iat = now` and the parsed lifetime; no `notBefore` option is ever
passed by zoogle. -/
def jwtSign (payload : JwtPayloadV) (secret : String) (expiresIn : String) (now : Nat) : SignedToken :=
  { payload := payload
  , secret := secret
  , iat := now
  , lifetime := parseDuration expiresIn
  , nbf := none }

/-- `jwt.verify(token, secret)` at clock time `now`: fails with
`JsonWebTokenError` on an empty secret, a malformed token, or a secret
mismatch; then checks `nbf` (`NotBeforeError`) and finally `exp`
(`TokenExpiredError` when `now ≥ iat + lifetime`); otherwise returns
the decoded payload. -/
def jwtVerify (tok : Token) (secret : String) (now : Nat) : Except JwtVerifyError JwtPayloadV :=
  if secret = "" then .error .jsonWebTokenError
  else
    match tok with
    | .malformed _ => .error .jsonWebTokenError
    | .signed t =>
      if t.secret ≠ secret then .error .jsonWebTokenError
      else
        match t.nbf with
        | some nbf =>
          if now < nbf then .error .notBeforeError
          else if t.iat + t.lifetime ≤ now then .error .tokenExpiredError
          else .ok t.payload
        | none =>
          if t.iat + t.lifetime ≤ now then .error .tokenExpiredError
          else .ok t.payload

/-! ## Token issuer/verifier (`src/utils/jwt.ts`, `ZoogleAuthError` variant) -/

/-- `config.jwt.expiresIn || '7d'`: the lifetime string actually passed
to `jwt.sign` (absent or empty falls back to the default). -/
def effectiveExpiresIn (cfg : Config) : String :=
  match cfg.jwt.expiresIn with
  | none => "7d"
  | some s => if s = "" then "7d" else s

/-- The configured token lifetime in seconds. -/
def lifetimeSeconds (cfg : Config) : Nat :=
  parseDuration (effectiveExpiresIn cfg)

/-- `JWTUtils.generateToken(user)`: signs the minimal `{id, email}`
claim set with the configured secret and configured-or-default
lifetime.  Extra user fields are not embedded. -/
def JWTUtils.generateToken (cfg : Config) (now : Nat) (user : AppUser) : SignedToken :=
  jwtSign (.objP user.id user.email) cfg.jwt.secret (effectiveExpiresIn cfg) now

/-- The `catch` block of `JWTUtils.verifyToken`: maps each underlying
`jwt.verify` failure, dispatched by `error.name`, to a
`ZoogleAuthError`. -/
def classifyJwtFailure (e : JwtVerifyError) : JsError :=
  if e.name = "TokenExpiredError" then
    .zoogleAuth .token_expired "Token has expired. Please log in again."
  else if e.name = "JsonWebTokenError" then
    .zoogleAuth .token_invalid "Invalid token signature or format."
  else if e.name = "NotBeforeError" then
    .zoogleAuth .token_invalid "Token is not yet valid."
  else
    .zoogleAuth .token_invalid ("Token verification failed: " ++ e.errMessage)

/-- `JWTUtils.verifyToken(token)` (the throwing variant): verifies with
the configured secret; a string payload is rejected as `token_invalid`;
an object payload becomes an `AppUser` from its `id`/`email` claims;
every `jwt.verify` failure is classified through `classifyJwtFailure`. -/
def JWTUtils.verifyToken (cfg : Config) (now : Nat) (tok : Token) : Except JsError AppUser :=
  match jwtVerify tok cfg.jwt.secret now with
  | .error e => .error (classifyJwtFailure e)
  | .ok (.strP _) =>
    .error (.zoogleAuth .token_invalid "Token verification failed: Invalid token format")
  | .ok (.objP id email) => .ok { id := id, email := email, extra := [] }

/-- Every classified `jwt.verify` failure is a `ZoogleAuthError` whose
code is `token_expired` or `token_invalid`. -/
theorem classifyJwtFailure_code (e : JwtVerifyError) :
    ∃ c m, classifyJwtFailure e = .zoogleAuth c m ∧
      (c = AuthErrorCode.token_expired ∨ c = AuthErrorCode.token_invalid) := by
  cases e with
  | tokenExpiredError => exact ⟨_, _, rfl, Or.inl rfl⟩
  | jsonWebTokenError => exact ⟨_, _, rfl, Or.inr rfl⟩
  | notBeforeError => exact ⟨_, _, rfl, Or.inr rfl⟩
  | otherError n m =>
    simp only [classifyJwtFailure, JwtVerifyError.name, JwtVerifyError.errMessage]
    split_ifs
    · exact ⟨_, _, rfl, Or.inl rfl⟩
    · exact ⟨_, _, rfl, Or.inr rfl⟩
    · exact ⟨_, _, rfl, Or.inr rfl⟩
    · exact ⟨_, _, rfl, Or.inr rfl⟩

/-- C3: round-trip law — verifying a token immediately after issuing it
for user `u`, under unchanged configuration with a non-empty secret
(and a positive configured lifetime), succeeds and yields a claim set
whose `id` and `email` equal `u`'s. -/
theorem verify_generate_roundtrip (cfg : Config) (u : AppUser) (t : Nat)
    (hsec : cfg.jwt.secret ≠ "")
    (hlife : 0 < lifetimeSeconds cfg) :
    ∃ v, JWTUtils.verifyToken cfg t (.signed (JWTUtils.generateToken cfg t u)) = .ok v ∧
      v.id = u.id ∧ v.email = u.email := by
  refine ⟨{ id := u.id, email := u.email, extra := [] }, ?_, rfl, rfl⟩
  have h0 : parseDuration (effectiveExpiresIn cfg) ≠ 0 := by
    have h := hlife
    unfold lifetimeSeconds at h
    omega
  simp [JWTUtils.verifyToken, JWTUtils.generateToken, jwtSign, jwtVerify, hsec, h0]

/-- A fully populated configuration used by concrete witnesses. -/
def cfgJwt : Config :=
  { google :=
      { clientId := "cid-123.apps.googleusercontent.com"
      , clientSecret := "cs-456"
      , callbackURL := "http://localhost:3000/auth/callback" }
  , jwt := { secret := "a-strong-random-secret-0123456789ab", expiresIn := some "7d" }
  , findOrCreateUser := some fun p => .ok { id := .str p.id, email := p.email, extra := [] }
  , onSuccess := false
  , onError := false }

/-- Witness for C3 at a concrete user and clock time. -/
theorem verify_generate_roundtrip_witness :
    ∃ v, JWTUtils.verifyToken cfgJwt 1000
        (.signed (JWTUtils.generateToken cfgJwt 1000
          { id := .str "u1", email := "u@example.com", extra := [("name", "Zed")] })) = .ok v ∧
      v.id = .str "u1" ∧ v.email = "u@example.com" :=
  verify_generate_roundtrip cfgJwt
    { id := .str "u1", email := "u@example.com", extra := [("name", "Zed")] }
    1000 (by decide) (by decide)

/-- C4: every `verifyToken` failure is a classified `ZoogleAuthError`
with code `token_expired` or `token_invalid` (never a silent null or
empty result); a token signed with a different secret fails as
`token_invalid`; a token verified once its configured lifetime has
elapsed fails as `token_expired`. -/
theorem verifyToken_failure_classification (cfg : Config) (t : Nat) :
    (∀ tok, (∃ u, JWTUtils.verifyToken cfg t tok = .ok u) ∨
      (∃ c m, JWTUtils.verifyToken cfg t tok = .error (.zoogleAuth c m) ∧
        (c = AuthErrorCode.token_expired ∨ c = AuthErrorCode.token_invalid))) ∧
    (∀ st : SignedToken, st.secret ≠ cfg.jwt.secret →
      ∃ m, JWTUtils.verifyToken cfg t (.signed st) =
        .error (.zoogleAuth .token_invalid m)) ∧
    (∀ (u : AppUser) (t0 : Nat), cfg.jwt.secret ≠ "" → t0 + lifetimeSeconds cfg ≤ t →
      JWTUtils.verifyToken cfg t (.signed (JWTUtils.generateToken cfg t0 u)) =
        .error (.zoogleAuth .token_expired "Token has expired. Please log in again.")) := by
  refine ⟨?_, ?_, ?_⟩
  · intro tok
    unfold JWTUtils.verifyToken
    rcases h : jwtVerify tok cfg.jwt.secret t with e | p
    · right
      obtain ⟨c, m, hc, hor⟩ := classifyJwtFailure_code e
      exact ⟨c, m, by simp [hc], hor⟩
    · cases p with
      | strP s => exact Or.inr ⟨_, _, rfl, Or.inr rfl⟩
      | objP id email => exact Or.inl ⟨_, rfl⟩
  · intro st hne
    by_cases hs : cfg.jwt.secret = "" <;>
      simp [JWTUtils.verifyToken, jwtVerify, classifyJwtFailure,
        JwtVerifyError.name, hs, hne]
  · intro u t0 hsec hle
    have hle' : (JWTUtils.generateToken cfg t0 u).iat +
        (JWTUtils.generateToken cfg t0 u).lifetime ≤ t := by
      simpa [JWTUtils.generateToken, jwtSign, lifetimeSeconds] using hle
    simp [JWTUtils.verifyToken, JWTUtils.generateToken, jwtSign, jwtVerify,
      classifyJwtFailure, JwtVerifyError.name, hsec,
      lifetimeSeconds] at hle' ⊢
    simp [hle']

/-- Witness for C4: a token signed with a different secret than
`cfgJwt`'s is rejected as `token_invalid`. -/
theorem verifyToken_failure_classification_witness :
    ∃ m, JWTUtils.verifyToken cfgJwt 0
        (.signed { payload := .objP (.num 1) "a@b.c"
                 , secret := "some-other-secret"
                 , iat := 0, lifetime := 604800, nbf := none }) =
      .error (.zoogleAuth .token_invalid m) :=
  (verifyToken_failure_classification cfgJwt 0).2.1 _ (by decide)

/-! ## Access guard (`src/middleware/auth.ts`, `ZoogleAuthError` variant) -/

/-- The uniform rejection body `{success, error_code, message}`. -/
structure ErrorBody where
  success : Bool
  error_code : String
  message : String
deriving DecidableEq, Repr

/-- Outcome of `requireAuth` on one request: pass control onward with
the decoded user attached to the request, or answer with a status and
JSON body. -/
inductive GuardResult where
  | allow (user : AppUser)
  | reject (status : Nat) (body : ErrorBody)
deriving DecidableEq, Repr

/-- The rejection `error_code` of a guard outcome, if it is a
rejection. -/
def GuardResult.rejectionCode : GuardResult → Option String
  | .allow _ => none
  | .reject _ b => some b.error_code

/-- Split a character list at every occurrence of `sep`, keeping empty
pieces — the semantics of JavaScript `String.prototype.split` with a
one-character separator. -/
def splitAux (sep : Char) (acc : List Char) : List Char → List (List Char)
  | [] => [acc.reverse]
  | c :: cs =>
    if c = sep then acc.reverse :: splitAux sep [] cs
    else splitAux sep (c :: acc) cs

/-- JavaScript `s.split(sep)` for a one-character separator. -/
def jsSplit (s : String) (sep : Char) : List String :=
  (splitAux sep [] s.toList).map List.asString

/-- `requireAuth(req, res, next)`: reads the `Authorization` header
(`decode` interprets a compact token string back into the token value
it denotes, standing for the wire format of the external signing
primitive).  An absent (or, by JavaScript truthiness, empty) header is
`token_missing`; a header that does not split on spaces into exactly
two parts with the first literally `Bearer` is `token_malformed`;
otherwise the second part is verified, a `ZoogleAuthError` is surfaced
under its own code, and any other failure falls back to
`token_invalid`. -/
def requireAuth (cfg : Config) (now : Nat) (decode : String → Token)
    (authHeader : Option String) : GuardResult :=
  match authHeader with
  | none =>
    .reject 401
      { success := false
      , error_code := "token_missing"
      , message := "No authorization token provided. Please include an Authorization header with \"Bearer <token>\"." }
  | some h =>
    if h = "" then
      .reject 401
        { success := false
        , error_code := "token_missing"
        , message := "No authorization token provided. Please include an Authorization header with \"Bearer <token>\"." }
    else
      let parts := jsSplit h ' '
      if parts.length ≠ 2 ∨ parts.getD 0 "" ≠ "Bearer" then
        .reject 401
          { success := false
          , error_code := "token_malformed"
          , message := "Invalid token format. Expected format: \"Bearer <token>\"." }
      else
        match JWTUtils.verifyToken cfg now (decode (parts.getD 1 "")) with
        | .ok user => .allow user
        | .error (.zoogleAuth c m) =>
          .reject 401 { success := false, error_code := c.codeString, message := m }
        | .error _ =>
          .reject 401
            { success := false
            , error_code := "token_invalid"
            , message := "Token verification failed." }

/-- C5: the guard rejects an absent `Authorization` header with 401 and
`token_missing`; a header that is not exactly two space-separated parts
with the first literally `Bearer` with `token_malformed`; otherwise it
verifies the second part and surfaces a verification failure under the
Credential error's own code; and every rejection is a 401 whose body
has `success = false`. -/
theorem requireAuth_classification (cfg : Config) (now : Nat) (decode : String → Token) :
    ((requireAuth cfg now decode none).rejectionCode = some "token_missing") ∧
    (∀ h : String, h ≠ "" →
      ((jsSplit h ' ').length ≠ 2 ∨ (jsSplit h ' ').getD 0 "" ≠ "Bearer") →
      (requireAuth cfg now decode (some h)).rejectionCode = some "token_malformed") ∧
    (∀ (h tokStr : String) (c : AuthErrorCode) (m : String), h ≠ "" →
      jsSplit h ' ' = ["Bearer", tokStr] →
      JWTUtils.verifyToken cfg now (decode tokStr) = .error (.zoogleAuth c m) →
      requireAuth cfg now decode (some h) =
        .reject 401 { success := false, error_code := c.codeString, message := m }) ∧
    (∀ (hdr : Option String) (st : Nat) (b : ErrorBody),
      requireAuth cfg now decode hdr = .reject st b →
      st = 401 ∧ b.success = false) := by
  refine ⟨rfl, ?_, ?_, ?_⟩
  · intro h hne hbad
    simp only [requireAuth]
    rw [if_neg hne, if_pos hbad]
    rfl
  · intro h tokStr c m hne hsplit hver
    simp only [requireAuth]
    rw [if_neg hne]
    simp only [hsplit]
    rw [if_neg (by simp)]
    simp [hver]
  · intro hdr st b hr
    rcases hdr with _ | h
    · simp only [requireAuth] at hr
      cases hr
      exact ⟨rfl, rfl⟩
    · simp only [requireAuth] at hr
      by_cases hne : h = ""
      · rw [if_pos hne] at hr
        cases hr
        exact ⟨rfl, rfl⟩
      · rw [if_neg hne] at hr
        split at hr
        · cases hr
          exact ⟨rfl, rfl⟩
        · split at hr
          · simp at hr
          · cases hr
            exact ⟨rfl, rfl⟩
          · cases hr
            exact ⟨rfl, rfl⟩

/-- Witness for C5: the header `Basic xyz` is rejected as
`token_malformed`. -/
theorem requireAuth_classification_witness :
    (requireAuth cfgJwt 0 (fun s => .malformed s) (some "Basic xyz")).rejectionCode =
      some "token_malformed" :=
  (requireAuth_classification cfgJwt 0 (fun s => .malformed s)).2.1 "Basic xyz"
    (by decide) (by decide)

/-! ## Provider client (`src/core/oauth.ts`) -/

/-- The provider's authorization endpoint. -/
def GOOGLE_AUTH_URL : String := "https://accounts.google.com/o/oauth2/v2/auth"

/-- One hex digit, uppercase, as emitted by `URLSearchParams` percent
escapes. -/
def hexDigitChar (n : Nat) : Char :=
  if n < 10 then Char.ofNat (48 + n) else Char.ofNat (55 + n)

/-- `application/x-www-form-urlencoded` serialization of one UTF-8
byte: alphanumerics and `*-._` unchanged, space as `+`, everything else
percent-escaped. -/
def formEncodeByte (n : Nat) : String :=
  if (48 ≤ n ∧ n ≤ 57) ∨ (65 ≤ n ∧ n ≤ 90) ∨ (97 ≤ n ∧ n ≤ 122) ∨
      n = 42 ∨ n = 45 ∨ n = 46 ∨ n = 95 then
    String.singleton (Char.ofNat n)
  else if n = 32 then "+"
  else "%" ++ String.singleton (hexDigitChar (n / 16)) ++ String.singleton (hexDigitChar (n % 16))

/-- `URLSearchParams` encoding of one component string. -/
def formEncodeComponent (s : String) : String :=
  String.join (s.toUTF8.toList.map fun b => formEncodeByte b.toNat)

/-- `URLSearchParams.toString()` over key/value pairs in insertion
order. -/
def formEncode (ps : List (String × String)) : String :=
  String.intercalate "&" (ps.map fun p => formEncodeComponent p.1 ++ "=" ++ formEncodeComponent p.2)

/-- `OAuth.getAuthUrl()`: the provider authorization URL with
redirect URI, client id, offline access, code response type, forced
consent and the space-joined two-scope list, in the source's insertion
order. -/
def OAuth.getAuthUrl (cfg : Config) : String :=
  GOOGLE_AUTH_URL ++ "?" ++ formEncode
    [ ("redirect_uri", cfg.google.callbackURL)
    , ("client_id", cfg.google.clientId)
    , ("access_type", "offline")
    , ("response_type", "code")
    , ("prompt", "consent")
    , ("scope", String.intercalate " "
        [ "https://www.googleapis.com/auth/userinfo.profile"
        , "https://www.googleapis.com/auth/userinfo.email" ]) ]

/-- The provider token endpoint's error payload as surfaced through
axios (`error.response?.data`). -/
structure GoogleTokenErrorData where
  error : Option String
  error_description : Option String
deriving DecidableEq, Repr

/-- An axios transport or non-2xx failure: the error message, and the
response data when a response was received. -/
structure AxiosFailure where
  message : String
  responseData : Option GoogleTokenErrorData
deriving DecidableEq, Repr

/-- The token endpoint's success payload (must contain an access
token). -/
structure TokenResponse where
  access_token : String
deriving DecidableEq, Repr

/-- `OAuth.getTokens(code)` with the axios outcome passed in: on
success returns the payload; on failure throws a PLAIN `Error` whose
message appends `error.response?.data?.error_description ||
error.message` — note this is not a `ZoogleOAuthError`. -/
def OAuth.getTokens (code : String) (httpResult : Except AxiosFailure TokenResponse) :
    Except JsError TokenResponse :=
  match httpResult with
  | .ok r => .ok r
  | .error e =>
    .error (.plain ("Failed to fetch Google tokens: " ++
      (match e.responseData with
       | some d =>
         match d.error_description with
         | some desc => if desc = "" then e.message else desc
         | none => e.message
       | none => e.message)))

/-- `OAuth.getUserInfo(accessToken)` with the axios outcome passed in:
the strict four-field profile mapping is carried by the
`GoogleUserProfile` shape; on failure throws a plain `Error`. -/
def OAuth.getUserInfo (accessToken : String)
    (httpResult : Except AxiosFailure GoogleUserProfile) :
    Except JsError GoogleUserProfile :=
  match httpResult with
  | .ok r => .ok r
  | .error e => .error (.plain ("Failed to fetch Google user info: " ++ e.message))

/-! ## Authentication flow controller (`src/adapters/routes.ts`, `GET /callback`) -/

/-- The external calls the callback handler can make, recorded in
order. -/
inductive ExtCall where
  | exchange
  | profileFetch
  | resolveUser
deriving DecidableEq, Repr

/-- What the callback handler does with the response. -/
inductive RouteResponse where
  /-- `res.status(status).json({success:false, error_code, message})` -/
  | json (status : Nat) (body : ErrorBody)
  /-- `res.status(200).json({success:true, token, user})` -/
  | jsonSuccess (token : SignedToken) (user : AppUser)
  /-- `config.onSuccess(user, token, req, res, next)` -/
  | successHook (user : AppUser) (token : SignedToken)
  /-- `config.onError(error, req, res, next)` -/
  | errorHook (e : JsError)
deriving DecidableEq, Repr

/-- The callback route's `catch` block: hand the caught error to the
configured error hook when present, otherwise classify it by
`instanceof` into the default 500 response — `oauth_failed` for
`ZoogleOAuthError`, `database_error` for `ZoogleDatabaseError`,
`unknown_error` for everything else. -/
def callbackErrorResponse (cfg : Config) (e : JsError) : RouteResponse :=
  if cfg.onError then .errorHook e
  else
    match e with
    | .zoogleOAuth .. =>
      .json 500
        { success := false
        , error_code := "oauth_failed"
        , message := "Authentication with Google failed. Please try again or contact support." }
    | .zoogleDatabase .. =>
      .json 500
        { success := false
        , error_code := "database_error"
        , message := "Failed to create your account. Please try again or contact support." }
    | _ =>
      .json 500
        { success := false
        , error_code := "unknown_error"
        , message := "Authentication failed. Please try again or contact support." }

/-- The externally determined outcomes of one callback request: what
the provider's token and userinfo endpoints would answer, and the
clock time at token issuance. -/
structure CallbackEnv where
  tokenResult : Except AxiosFailure TokenResponse
  userInfoResult : Except AxiosFailure GoogleUserProfile
  now : Nat

/-- The `GET /callback` handler: missing (or empty, by JavaScript
truthiness) `code` answers 400 `missing_code` at once; otherwise
exchange, profile fetch, user resolution (failures wrapped into
`ZoogleDatabaseError` with the original as `originalError`), token
issuance, then the success hook or the default 200 body; any caught
failure goes through `callbackErrorResponse`.  The second component
records which external calls were made. -/
def callbackRoute (cfg : Config) (env : CallbackEnv) (code : Option String) :
    RouteResponse × List ExtCall :=
  let codeStr := code.getD ""
  if codeStr = "" then
    (.json 400
      { success := false
      , error_code := "missing_code"
      , message := "No authorization code provided by Google" }, [])
  else
    match OAuth.getTokens codeStr env.tokenResult with
    | .error e => (callbackErrorResponse cfg e, [.exchange])
    | .ok tokens =>
      match OAuth.getUserInfo tokens.access_token env.userInfoResult with
      | .error e => (callbackErrorResponse cfg e, [.exchange, .profileFetch])
      | .ok googleUser =>
        match cfg.findOrCreateUser with
        | none =>
          (callbackErrorResponse cfg (.plain "findOrCreateUser function is not configured."),
           [.exchange, .profileFetch])
        | some find =>
          match find googleUser with
          | .error dbError =>
            (callbackErrorResponse cfg
              (.zoogleDatabase
                "The findOrCreateUser function failed while saving the user to your database."
                dbError),
             [.exchange, .profileFetch, .resolveUser])
          | .ok user =>
            let token := JWTUtils.generateToken cfg env.now user
            if cfg.onSuccess then
              (.successHook user token, [.exchange, .profileFetch, .resolveUser])
            else
              (.jsonSuccess token user, [.exchange, .profileFetch, .resolveUser])

/-- C7: a callback request without a `code` query parameter (absent or
empty) answers 400 `missing_code` immediately, with no provider
exchange, profile fetch, or user-resolution call made. -/
theorem callback_missing_code (cfg : Config) (env : CallbackEnv) :
    callbackRoute cfg env none =
      (.json 400
        { success := false
        , error_code := "missing_code"
        , message := "No authorization code provided by Google" }, []) ∧
    callbackRoute cfg env (some "") =
      (.json 400
        { success := false
        , error_code := "missing_code"
        , message := "No authorization code provided by Google" }, []) :=
  ⟨rfl, rfl⟩

/-- The provider's token endpoint refusing the code `bad-code` with a
400 `invalid_grant` response, and an unused userinfo outcome. -/
def envExchangeFail : CallbackEnv :=
  { tokenResult :=
      .error
        { message := "Request failed with status code 400"
        , responseData := some { error := some "invalid_grant", error_description := some "Bad Request" } }
  , userInfoResult := .error { message := "not reached", responseData := none }
  , now := 0 }

/-- C1 (code behavior at the failing input): when the token exchange
fails, `getTokens` throws a plain `Error` — not a `ZoogleOAuthError` —
so with no error hook the route's `instanceof` classification falls
through to 500 `unknown_error`, not the documented `oauth_failed`. -/
theorem callback_exchange_failure_yields_unknown_error :
    callbackRoute cfgJwt envExchangeFail (some "bad-code") =
      (.json 500
        { success := false
        , error_code := "unknown_error"
        , message := "Authentication failed. Please try again or contact support." },
       [.exchange]) :=
  rfl

/-- C6: when the user-resolution callback fails, the failure is wrapped
into a `ZoogleDatabaseError` carrying the original error; a configured
error hook receives that wrapped error, and with no hook the default
response is 500 `database_error` with the fixed generic message —
which, being the same for every original failure, echoes none of it. -/
theorem callback_db_failure (cfg : Config) (env : CallbackEnv) (c : String)
    (tr : TokenResponse) (prof : GoogleUserProfile) (find : FindOrCreateUserFn) (e : JsError)
    (hc : c ≠ "") (htr : env.tokenResult = .ok tr) (hprof : env.userInfoResult = .ok prof)
    (hfind : cfg.findOrCreateUser = some find) (he : find prof = .error e) :
    (cfg.onError = true → (callbackRoute cfg env (some c)).1 =
      .errorHook (.zoogleDatabase
        "The findOrCreateUser function failed while saving the user to your database." e)) ∧
    (cfg.onError = false → (callbackRoute cfg env (some c)).1 =
      .json 500
        { success := false
        , error_code := "database_error"
        , message := "Failed to create your account. Please try again or contact support." }) := by
  have hroute : callbackRoute cfg env (some c) =
      (callbackErrorResponse cfg
        (.zoogleDatabase
          "The findOrCreateUser function failed while saving the user to your database." e),
       [.exchange, .profileFetch, .resolveUser]) := by
    simp [callbackRoute, OAuth.getTokens, OAuth.getUserInfo, hc, htr, hprof, hfind, he]
  constructor
  · intro hE
    rw [hroute]
    simp [callbackErrorResponse, hE]
  · intro hE
    rw [hroute]
    simp [callbackErrorResponse, hE]

/-- Successful exchange and profile fetch, for exercising the
user-resolution step. -/
def envResolved : CallbackEnv :=
  { tokenResult := .ok { access_token := "at-1" }
  , userInfoResult := .ok { id := "g1", email := "g@example.com", name := "G", picture := "pic" }
  , now := 0 }

/-- A database failure thrown by the embedder's callback. -/
def dbBoom : JsError := .plain "duplicate key error collection: users index: email_1"

/-- A configuration whose user-resolution callback always fails, with
no error hook configured. -/
def cfgDbFail : Config :=
  { cfgJwt with findOrCreateUser := some fun _ => .error dbBoom }

/-- Witness for C6 at a concrete failing user-resolution callback. -/
theorem callback_db_failure_witness :
    (callbackRoute cfgDbFail envResolved (some "good-code")).1 =
      .json 500
        { success := false
        , error_code := "database_error"
        , message := "Failed to create your account. Please try again or contact support." } :=
  (callback_db_failure cfgDbFail envResolved "good-code"
    { access_token := "at-1" }
    { id := "g1", email := "g@example.com", name := "G", picture := "pic" }
    (fun _ => .error dbBoom) dbBoom
    (by decide) rfl rfl rfl rfl).2 rfl

/-- C9: `getAuthUrl` is a pure total function of the configuration's
callback URL and client id: any two configurations agreeing on those
two fields produce byte-identical authorization URLs (idempotence under
unchanged configuration is the diagonal case). -/
theorem getAuthUrl_pure_function (c1 c2 : Config)
    (hcb : c1.google.callbackURL = c2.google.callbackURL)
    (hid : c1.google.clientId = c2.google.clientId) :
    OAuth.getAuthUrl c1 = OAuth.getAuthUrl c2 := by
  unfold OAuth.getAuthUrl
  rw [hcb, hid]

/-- Same credentials as `cfgJwt` but every other setting changed. -/
def cfgAltRest : Config :=
  { google := cfgJwt.google
  , jwt := { secret := "another-secret-entirely-0123456789ab", expiresIn := some "1h" }
  , findOrCreateUser := none
  , onSuccess := true
  , onError := true }

/-- Witness for C9: two configurations differing in everything but the
callback URL and client id produce the same authorization URL. -/
theorem getAuthUrl_pure_function_witness :
    OAuth.getAuthUrl cfgJwt = OAuth.getAuthUrl cfgAltRest :=
  getAuthUrl_pure_function cfgJwt cfgAltRest rfl rfl

/-! ## Library entry point (`src/index.ts`) -/

/-- `GoogleOAuthEasy.configure(options)`: merges via `Config.set`
FIRST, then validates; a `ZoogleConfigError` from `validate` is logged
and re-thrown unchanged (and `validate` only ever throws that class).
The first component is the singleton's state after the call — merged
whether or not validation succeeded. -/
def GoogleOAuthEasy.configure (c : Config) (options : LibraryOptions) (production : Bool) :
    Config × Option JsError :=
  let c2 := Config.set c options
  match Config.validate c2 production with
  | .error e => (c2, some e)
  | .ok _ => (c2, none)

/-- Options carrying only a new client id (empty companion fields): the
merge succeeds, validation then fails. -/
def optionsPartial : LibraryOptions :=
  { google := some { clientId := "new-client-id", clientSecret := "", callbackURL := "" }
  , jwt := none
  , findOrCreateUser := none
  , onSuccess := false
  , onError := false }

/-- C10: `configure` is not atomic on failure — its resulting state is
always `Config.set` of the old state, even when validation throws; at
the concrete `optionsPartial` the call fails yet the state keeps the
merged client id instead of rolling back to the initial empty one. -/
theorem configure_merges_before_validate :
    (∀ (c : Config) (o : LibraryOptions) (production : Bool),
      (GoogleOAuthEasy.configure c o production).1 = Config.set c o) ∧
    ((GoogleOAuthEasy.configure Config.initial optionsPartial false).2.isSome = true ∧
     (GoogleOAuthEasy.configure Config.initial optionsPartial false).1.google.clientId =
       "new-client-id" ∧
     Config.initial.google.clientId = "") := by
  constructor
  · intro c o production
    rcases hv : Config.validate (Config.set c o) production with e | ws <;>
      simp [GoogleOAuthEasy.configure, hv]
  · exact ⟨by decide, by decide, rfl⟩

end Zoogle
